import Mathlib

/-!
Shallow embedding of the NVMe-Rust driver core (src/src/queues.rs,
src/src/device.rs, src/src/cmd.rs) and proofs about the behaviour that the
natural-language specification ascribes to it.

Machine integers are embedded as `Nat` with explicit `% 2^w` at the points
where the Rust code truncates (`as u8`, `as u16`, `as u32`).  Fallible Rust
code returning `Result<T, Error>` is embedded as `Except Error T`; Rust code
that can panic (unchecked integer subtraction in debug builds) is wrapped in
`Option`, `none` standing for the abort.  Stateful methods are embedded as
explicit state-passing functions on structures mirroring the Rust structs.
-/

namespace NVMeRust

/-- The error enumeration of `src/src/error.rs` (the variants that the
submission/completion path and the namespace facade can produce). -/
inductive Error where
  | SubQueueFull
  | InvalidBufferSize
  | NotAlignedToDword
  | NotAlignedToPage
  | IoSizeExceedsMdts
  | QueueSizeTooSmall
  | QueueSizeExceedsMqes
  | CommandFailed (status : Nat)
  | DeviceShuttingDown
  | NoActiveQueues
  | LastQueueCannotBeRemoved
  | InvalidQueueCount
  | TooManyQueues
  deriving DecidableEq, Repr

/-- The 64-byte packed NVMe command of `src/src/cmd.rs` (`struct Command`).
Every field is a `Nat` standing for the machine integer of the given width. -/
structure Command where
  opcode : Nat
  flags : Nat
  cmd_id : Nat
  ns_id : Nat
  rsvd : Nat
  md_ptr : Nat
  data_ptr0 : Nat
  data_ptr1 : Nat
  cmd_10 : Nat
  cmd_11 : Nat
  cmd_12 : Nat
  cmd_13 : Nat
  cmd_14 : Nat
  cmd_15 : Nat
  deriving DecidableEq, Repr

/-- Rust `Command::default()`: all fields zero. -/
def Command.zeroed : Command :=
  ⟨0, 0, 0, 0, 0, 0, 0, 0, 0, 0, 0, 0, 0, 0⟩

instance : Inhabited Command := ⟨Command.zeroed⟩

/-- The 16-byte completion entry of `src/src/queues.rs` (`struct Completion`). -/
structure Completion where
  command_specific : Nat
  rsvd : Nat
  sq_head : Nat
  sq_id : Nat
  cmd_id : Nat
  status : Nat
  deriving DecidableEq, Repr

/-- A zero-initialized completion slot (DMA memory is zeroed on allocation). -/
def Completion.zeroed : Completion := ⟨0, 0, 0, 0, 0, 0⟩

instance : Inhabited Completion := ⟨Completion.zeroed⟩

/-- The state of `SubQueue` from `src/src/queues.rs`: the `len` field together
with the mutex-protected `SubQueueInner` (`slots`, `head`, `tail`). -/
structure SubQueue where
  len : Nat
  slots : List Command
  head : Nat
  tail : Nat
  deriving DecidableEq, Repr

/-- Rust `SubQueue::new(len)`: zeroed slots, `head = 0`, `tail = 0`. -/
def SubQueue.new (len : Nat) : SubQueue :=
  ⟨len, List.replicate len Command.zeroed, 0, 0⟩

/-- Embedding of `SubQueue::try_push` from `src/src/queues.rs` lines 88-98: fails with
`SubQueueFull` when `head == (tail + 1) % len`; otherwise stores the entry at
the old tail, advances `tail = (tail + 1) % len` and returns the new tail. -/
def SubQueue.try_push (q : SubQueue) (entry : Command) : Except Error (SubQueue × Nat) :=
  if q.head = (q.tail + 1) % q.len then
    .error .SubQueueFull
  else
    .ok ({ q with slots := q.slots.set q.tail entry, tail := (q.tail + 1) % q.len },
         (q.tail + 1) % q.len)

/-- The state of `CompQueue` from `src/src/queues.rs`: the `len` field together
with the mutex-protected `CompQueueInner` (`slots`, `head`, `phase`). -/
structure CompQueue where
  len : Nat
  slots : List Completion
  head : Nat
  phase : Bool
  deriving DecidableEq, Repr

/-- Rust `CompQueue::new(len)`: zeroed slots, `head = 0`, `phase = true`. -/
def CompQueue.new (len : Nat) : CompQueue :=
  ⟨len, List.replicate len Completion.zeroed, 0, true⟩

/-- Embedding of `CompQueue::try_pop` from `src/src/queues.rs` lines 174-186, embedded by
explicit state passing.  The slot at `head` is read; when
`((status & 1) == 1) == phase` the head advances to `(head + 1) % len`, the
phase toggles when the new head is `0`, and the new head together with the
entry copy is returned.  Otherwise the closure under `.then` never runs, so
the state is returned untouched with `none`. -/
def CompQueue.try_pop (q : CompQueue) : CompQueue × Option (Nat × Completion) :=
  if (decide ((q.slots.getD q.head Completion.zeroed).status % 2 = 1)) = q.phase then
    ({ q with head := (q.head + 1) % q.len,
              phase := if (q.head + 1) % q.len = 0 then !q.phase else q.phase },
     some ((q.head + 1) % q.len, q.slots.getD q.head Completion.zeroed))
  else
    (q, none)

/-- C1: `SubQueue::try_push` fails with `SubQueueFull` exactly when
`head == (tail + 1) % len`; otherwise it writes the command into the slot at
the old tail, advances the tail to `(tail + 1) % len` and returns the new
tail. -/
theorem SubQueue.try_push_spec (q : SubQueue) (c : Command) :
    (q.try_push c = .error .SubQueueFull ↔ q.head = (q.tail + 1) % q.len) ∧
    (q.head ≠ (q.tail + 1) % q.len →
      q.try_push c =
        .ok ({ q with slots := q.slots.set q.tail c, tail := (q.tail + 1) % q.len },
             (q.tail + 1) % q.len)) := by
  constructor
  · constructor
    · intro h
      by_contra hne
      rw [try_push, if_neg hne] at h
      exact Except.noConfusion h
    · intro h
      rw [try_push, if_pos h]
  · intro hne
    rw [try_push, if_neg hne]

/-- Witness for C1 at a concrete queue: a 4-slot queue with `head = 0`,
`tail = 0` is not full, and pushing advances the tail to `1`. -/
theorem SubQueue.try_push_spec_witness :
    (SubQueue.new 4).try_push Command.zeroed =
      .ok ({ SubQueue.new 4 with
               slots := (SubQueue.new 4).slots.set 0 Command.zeroed, tail := 1 }, 1) :=
  (SubQueue.try_push_spec (SubQueue.new 4) Command.zeroed).2 (by decide)

/-- C2: a fresh completion queue has `phase = true`; `try_pop` yields an entry
exactly when the low bit of the status word at the current head equals the
queue's phase; and a successful pop advances the head to `(head + 1) % len`,
toggling the phase exactly when the new head is `0` (wrap past `len - 1`). -/
theorem CompQueue.try_pop_spec (len : Nat) (q : CompQueue) :
    (CompQueue.new len).phase = true ∧
    ((q.try_pop).2.isSome ↔
      decide ((q.slots.getD q.head Completion.zeroed).status % 2 = 1) = q.phase) ∧
    (∀ res, (q.try_pop).2 = some res →
      (q.try_pop).1.head = (q.head + 1) % q.len ∧
      (q.try_pop).1.phase =
        (if (q.head + 1) % q.len = 0 then !q.phase else q.phase) ∧
      res = ((q.head + 1) % q.len, q.slots.getD q.head Completion.zeroed)) := by
  refine ⟨rfl, ?_, ?_⟩
  · by_cases h :
      decide ((q.slots.getD q.head Completion.zeroed).status % 2 = 1) = q.phase
    · rw [try_pop, if_pos h]
      exact iff_of_true rfl h
    · rw [try_pop, if_neg h]
      exact iff_of_false Bool.false_ne_true h
  · intro res hres
    by_cases h :
      decide ((q.slots.getD q.head Completion.zeroed).status % 2 = 1) = q.phase
    · rw [try_pop, if_pos h] at hres
      rw [try_pop, if_pos h]
      exact ⟨rfl, rfl, (Option.some.injEq _ _ ▸ hres).symm⟩
    · rw [try_pop, if_neg h] at hres
      exact Option.noConfusion hres

/-- Witness for C2 at a concrete queue: a 2-slot queue whose head slot carries
status `1` (phase bit set) pops successfully, moving the head to `1` and
keeping `phase = true`. -/
theorem CompQueue.try_pop_spec_witness :
    ({ len := 2, slots := [⟨0, 0, 0, 0, 0, 1⟩, Completion.zeroed],
       head := 0, phase := true } : CompQueue).try_pop
      = ({ len := 2, slots := [⟨0, 0, 0, 0, 0, 1⟩, Completion.zeroed],
           head := 1, phase := true }, some (1, ⟨0, 0, 0, 0, 0, 1⟩)) ∧
    (1, (⟨0, 0, 0, 0, 0, 1⟩ : Completion)) =
      ((0 + 1) % 2,
        (({ len := 2, slots := [⟨0, 0, 0, 0, 0, 1⟩, Completion.zeroed],
            head := 0, phase := true } : CompQueue)).slots.getD 0 Completion.zeroed) := by
  refine ⟨by decide, ?_⟩
  exact ((CompQueue.try_pop_spec 2
    { len := 2, slots := [⟨0, 0, 0, 0, 0, 1⟩, Completion.zeroed],
      head := 0, phase := true }).2.2
    (1, ⟨0, 0, 0, 0, 0, 1⟩) (by decide)).2.2

/-- C10: when the status phase bit at the head does not match the queue's
phase, `try_pop` returns `none` and the queue state is entirely unchanged —
same head, same phase, same slots. -/
theorem CompQueue.try_pop_frame (q : CompQueue)
    (h : decide ((q.slots.getD q.head Completion.zeroed).status % 2 = 1) ≠ q.phase) :
    q.try_pop = (q, none) := by
  rw [try_pop, if_neg h]

/-- Witness for C10 at a concrete queue: a fresh 2-slot queue (all-zero status,
phase `true`) pops nothing and is left untouched. -/
theorem CompQueue.try_pop_frame_witness :
    (CompQueue.new 2).try_pop = (CompQueue.new 2, none) :=
  CompQueue.try_pop_frame (CompQueue.new 2) (by decide)

/-- The capability-derived values computed at the top of `NVMeDevice::init`
(`src/src/device.rs` lines 825-832). -/
structure CapInfo where
  doorbell_stride : Nat
  max_queue_entries : Nat
  min_pagesize : Nat
  admin_queue_size : Nat
  deriving DecidableEq, Repr

/-- The CAP decode performed by `NVMeDevice::init`:
`doorbell_stride = (cap >> 32) as u8 & 0xF`,
`max_queue_entries = (cap & 0x7FFF) as usize + 1`,
`min_pagesize = 1 << (((cap >> 48) as u8 & 0xF) + 12)`,
`admin_queue_size = max_queue_entries.max(MIN_ADMIN_QUEUE_SIZE)` with
`MIN_ADMIN_QUEUE_SIZE = 2`. -/
def decodeCap (cap : Nat) : CapInfo :=
  { doorbell_stride := cap / 2 ^ 32 % 2 ^ 8 % 16
    max_queue_entries := cap % 2 ^ 15 + 1
    min_pagesize := 2 ^ (cap / 2 ^ 48 % 2 ^ 8 % 16 + 12)
    admin_queue_size := max (cap % 2 ^ 15 + 1) 2 }

/-- Spec-side definition for comparison: the specification prescribes
`max_queue_entries = MQES + 1` where MQES is the full 16-bit field
`CAP[15:0]`. -/
def specMaxQueueEntries (cap : Nat) : Nat := cap % 2 ^ 16 + 1

/-- C3: the DSTRD and MPSMIN fields are decoded from `CAP[35:32]` and
`CAP[51:48]` as claimed, and the admin queue size is
`max(max_queue_entries, 2)`; but `max_queue_entries` is computed with a
15-bit mask `CAP & 0x7FFF` instead of the 16-bit field `CAP[15:0]`: at
`CAP = 0x8000` the code yields `1` while `MQES + 1 = 32769`. -/
theorem decodeCap_mqes_mask_bug :
    (∀ cap : Nat,
      (decodeCap cap).doorbell_stride = cap / 2 ^ 32 % 16 ∧
      (decodeCap cap).min_pagesize = 2 ^ (cap / 2 ^ 48 % 16 + 12) ∧
      (decodeCap cap).admin_queue_size = max (decodeCap cap).max_queue_entries 2) ∧
    (decodeCap 0x8000).max_queue_entries = 1 ∧
    specMaxQueueEntries 0x8000 = 32769 ∧
    (decodeCap 0x8000).max_queue_entries ≠ specMaxQueueEntries 0x8000 := by
  refine ⟨fun cap => ⟨?_, ?_, rfl⟩, by decide, by decide, by decide⟩
  · exact Nat.mod_mod_of_dvd (cap / 2 ^ 32) (by norm_num)
  · rw [show (decodeCap cap).min_pagesize = 2 ^ (cap / 2 ^ 48 % 2 ^ 8 % 16 + 12) from rfl,
        Nat.mod_mod_of_dvd (cap / 2 ^ 48) (by norm_num)]

/-- Embedding of `Command::dataset_management` from `src/src/cmd.rs` lines 501-524:
opcode `0x09`, `cmd_10 = nr`, `cmd_11` carries the AD (bit 2), IDW (bit 1)
and IDR (bit 0) flags, and `data_ptr[0]` holds the range-list address. -/
def Command.dataset_management (cmd_id ns_id address nr : Nat)
    (ad idw idr : Bool) : Command :=
  { Command.zeroed with
      opcode := 0x09
      cmd_id := cmd_id
      ns_id := ns_id
      data_ptr0 := address % 2 ^ 64
      cmd_10 := nr % 2 ^ 8
      cmd_11 := (if ad then 4 else 0) + (if idw then 2 else 0) + (if idr then 1 else 0) }

/-- The single DSM range `Namespace::trim` builds (`src/src/device.rs` line
325): the tuple `(lba as u32, (lba >> 32) as u32, block_count as u32)`, i.e.
three 32-bit words holding the LBA low half, the LBA high half and the block
count, in that order — 12 bytes, with no context-attributes field. -/
def trimRangeWords (lba block_count : Nat) : List Nat :=
  [lba % 2 ^ 32, lba / 2 ^ 32 % 2 ^ 32, block_count % 2 ^ 32]

/-- Spec-side definition for comparison: the 16-byte Dataset-Management range
descriptor the specification prescribes, `[attr:u32 = 0, length:u32 = blocks,
lba:u64]`, viewed as four little-endian 32-bit words
`[attr, length, lba_lo, lba_hi]`. -/
def specDsmRangeWords (lba block_count : Nat) : List Nat :=
  [0, block_count % 2 ^ 32, lba % 2 ^ 32, lba / 2 ^ 32 % 2 ^ 32]

/-- The `n`-byte little-endian serialization of a machine word. -/
def leBytes : Nat → Nat → List Nat
  | 0, _ => []
  | n + 1, v => v % 256 :: leBytes n (v / 256)

/-- Serialization of a list of 32-bit words to their in-order byte layout. -/
def wordsToBytes (ws : List Nat) : List Nat := (ws.map (leBytes 4)).flatten

/-- C6: the submitted Dataset-Management command does carry `nr = 0` and
`AD = 1`, but the range descriptor the code points it at is the 12-byte
word sequence `(lba_lo, lba_hi, block_count)` rather than the 16-byte
`[attr = 0, length = blocks, lba:u64]` layout the specification prescribes:
at `trim(lba = 1000, blocks = 8)` the code emits words `[1000, 0, 8]` where
the spec demands `[0, 8, 1000, 0]`. -/
theorem trim_descriptor_bug :
    (Command.dataset_management 0 1 0x1000 0 true false false).opcode = 0x09 ∧
    (Command.dataset_management 0 1 0x1000 0 true false false).cmd_10 = 0 ∧
    (Command.dataset_management 0 1 0x1000 0 true false false).cmd_11 = 4 ∧
    trimRangeWords 1000 8 = [1000, 0, 8] ∧
    specDsmRangeWords 1000 8 = [0, 8, 1000, 0] ∧
    (wordsToBytes (trimRangeWords 1000 8)).length = 12 ∧
    (wordsToBytes (specDsmRangeWords 1000 8)).length = 16 ∧
    trimRangeWords 1000 8 ≠ specDsmRangeWords 1000 8 := by decide

/-- The fields of `NamespaceData` (`src/src/device.rs` lines 174-181) that
namespace identification reads: the capacity, the `lba_size` byte (FLBAS) and
the 16-entry `lba_format_support` array. -/
structure NamespaceData where
  capacity : Nat
  lba_size : Nat
  lba_format_support : List Nat
  deriving DecidableEq, Repr

/-- The fields of the `Namespace` record built by `ident_namespaces_all`. -/
structure NamespaceRec where
  id : Nat
  block_size : Nat
  block_count : Nat
  deriving DecidableEq, Repr

/-- The per-namespace construction in `NVMeDevice::ident_namespaces_all`
(`src/src/device.rs` lines 1047-1056): `flba_index = lba_size & 0xF`,
`flba_data = (lba_format_support[flba_index] >> 16) & 0xFF`,
`block_size = 1 << flba_data`, `block_count = capacity`. -/
def buildNamespace (id : Nat) (d : NamespaceData) : NamespaceRec :=
  { id := id
    block_size := 2 ^ (d.lba_format_support.getD (d.lba_size % 16) 0 / 2 ^ 16 % 2 ^ 8)
    block_count := d.capacity }

/-- The namespace records `ident_namespaces_all` creates (`src/src/device.rs`
lines 1033-1059): one for every nonzero id in the identify list, built by
`buildNamespace`, with no further filtering. -/
def identNamespacesAll (ids : List Nat) (lookup : Nat → NamespaceData) :
    List NamespaceRec :=
  (ids.filter (fun id => id != 0)).map (fun id => buildNamespace id (lookup id))

/-- An all-zero identify-namespace payload: `lba_size = 0` selects LBA format
0, whose `lbads` field is 0, so the derived block size is `2 ^ 0 = 1`. -/
def nsDataZero : NamespaceData := ⟨0, 0, List.replicate 16 0⟩

/-- C7 counterexample: identification of namespace id 1 with an all-zero
format table creates a `Namespace` record with `block_size = 1 < 512` — the
code has no minimum-block-size rejection. -/
theorem ident_namespaces_no_512_check :
    identNamespacesAll [1] (fun _ => nsDataZero) = [⟨1, 1, 0⟩] ∧
    (1 : Nat) < 512 := by decide

/-- C7 (amended): the block size is `2 ^ lbads` taken from the LBA format
entry selected by `lba_size & 0xF`, and a `Namespace` record is created for
every nonzero listed id regardless of the derived block size — a record is in
the result exactly when it is `buildNamespace` of some nonzero listed id. -/
theorem ident_namespaces_membership (ids : List Nat) (lookup : Nat → NamespaceData)
    (r : NamespaceRec) :
    r ∈ identNamespacesAll ids lookup ↔
      ∃ i, i ∈ ids ∧ i ≠ 0 ∧ r = buildNamespace i (lookup i) := by
  constructor
  · intro h
    rcases List.mem_map.1 h with ⟨i, hi, hbuild⟩
    rcases List.mem_filter.1 hi with ⟨hmem, hne⟩
    exact ⟨i, hmem, by simpa using hne, hbuild.symm⟩
  · rintro ⟨i, hmem, hne, rfl⟩
    exact List.mem_map.2 ⟨i, List.mem_filter.2 ⟨hmem, by simpa using hne⟩, rfl⟩

/-- The per-queue data `Namespace::select_queue` inspects: the queue id, the
`outstanding` counter and the `shutdown` flag (from `struct IoQueuePair`,
`src/src/device.rs` lines 205-218). -/
structure IoQueueRec where
  qid : Nat
  outstanding : Nat
  shutdown : Bool
  deriving DecidableEq, Repr

/-- Value of `usize::MAX` on the 64-bit target. -/
def usizeMax : Nat := 2 ^ 64 - 1

/-- The minimum-search loop inside `Namespace::select_queue`
(`src/src/device.rs` lines 294-303): walk the active queues keeping the
running minimum `m` and the currently selected queue, updating both only on a
strict decrease of `outstanding`. -/
def selMinLoop : List IoQueueRec → Nat → Option IoQueueRec → Nat × Option IoQueueRec
  | [], m, sel => (m, sel)
  | q :: rest, m, sel =>
    if q.outstanding < m then selMinLoop rest q.outstanding (some q)
    else selMinLoop rest m sel

/-- Embedding of `Namespace::select_queue` (`src/src/device.rs` lines 272-310), with the
queue list and the `queue_selector` value as explicit state.  Shutdown queues
are filtered out; a single active queue is returned directly; otherwise the
strict-minimum loop runs starting from `usize::MAX`, and only when it selected
nothing does the round-robin fallback index with `selector % active.length`. -/
def selectQueue (queues : List IoQueueRec) (selector : Nat) : Option IoQueueRec :=
  if queues = [] then none
  else
    let active := queues.filter (fun q => !q.shutdown)
    if active = [] then none
    else if active.length = 1 then active.head?
    else
      match (selMinLoop active usizeMax none).2 with
      | some q => some q
      | none => active[selector % active.length]?

theorem selMinLoop_of_forall_not_lt (l : List IoQueueRec) (m : Nat)
    (sel : Option IoQueueRec) (h : ∀ q ∈ l, ¬ q.outstanding < m) :
    selMinLoop l m sel = (m, sel) := by
  induction l with
  | nil => rfl
  | cons q rest ih =>
    simp only [selMinLoop]
    rw [if_neg (h q (List.mem_cons_self q rest))]
    exact ih (fun p hp => h p (List.mem_cons_of_mem q hp))

theorem selMinLoop_min (l : List IoQueueRec) :
    ∀ (m : Nat) (sel : Option IoQueueRec),
      (∃ q ∈ l, q.outstanding < m) →
      ∃ r, (selMinLoop l m sel).2 = some r ∧ r ∈ l ∧ r.outstanding < m ∧
        ∀ p ∈ l, r.outstanding ≤ p.outstanding := by
  induction l with
  | nil =>
    intro m sel h
    rcases h with ⟨q, hq, _⟩
    exact absurd hq (List.not_mem_nil q)
  | cons q rest ih =>
    intro m sel h
    by_cases hq : q.outstanding < m
    · by_cases hrest : ∃ p ∈ rest, p.outstanding < q.outstanding
      · rcases ih q.outstanding (some q) hrest with ⟨r, hr2, hrmem, hrlt, hrmin⟩
        refine ⟨r, ?_, List.mem_cons_of_mem q hrmem, lt_trans hrlt hq, ?_⟩
        · simp only [selMinLoop]
          rw [if_pos hq]
          exact hr2
        · intro p hp
          rcases List.mem_cons.1 hp with rfl | hp'
          · exact le_of_lt hrlt
          · exact hrmin p hp'
      · push_neg at hrest
        refine ⟨q, ?_, List.mem_cons_self q rest, hq, ?_⟩
        · simp only [selMinLoop]
          rw [if_pos hq, selMinLoop_of_forall_not_lt rest q.outstanding (some q)
            (fun p hp => not_lt.2 (hrest p hp))]
        · intro p hp
          rcases List.mem_cons.1 hp with rfl | hp'
          · exact le_refl _
          · exact hrest p hp'
    · have hrest : ∃ p ∈ rest, p.outstanding < m := by
        rcases h with ⟨p, hp, hplt⟩
        rcases List.mem_cons.1 hp with rfl | hp'
        · exact absurd hplt hq
        · exact ⟨p, hp', hplt⟩
      rcases ih m sel hrest with ⟨r, hr2, hrmem, hrlt, hrmin⟩
      refine ⟨r, ?_, List.mem_cons_of_mem q hrmem, hrlt, ?_⟩
      · simp only [selMinLoop]
        rw [if_neg hq]
        exact hr2
      · intro p hp
        rcases List.mem_cons.1 hp with rfl | hp'
        · exact le_of_lt (lt_of_lt_of_le hrlt (not_lt.1 hq))
        · exact hrmin p hp'

/-- C8 counterexample: with two active queues tied at `outstanding = 0`,
`select_queue` returns the first queue for selector value `0` and again for
selector value `1` — the tie is not broken round-robin by the selector
counter (the strict-minimum loop already fixes the first minimal queue, so
the round-robin fallback never runs). -/
theorem select_queue_no_round_robin :
    selectQueue [⟨1, 0, false⟩, ⟨2, 0, false⟩] 0 = some ⟨1, 0, false⟩ ∧
    selectQueue [⟨1, 0, false⟩, ⟨2, 0, false⟩] 1 = some ⟨1, 0, false⟩ ∧
    selectQueue [⟨1, 0, false⟩, ⟨2, 0, false⟩] 1 ≠ some ⟨2, 0, false⟩ := by
  decide

/-- C8 (amended): whenever there is an active queue and every active queue's
outstanding count is below `usize::MAX`, `select_queue` returns an active
(non-shutdown) queue whose outstanding count is minimal over all active
queues; the choice is independent of the selector counter, so ties are not
rotated round-robin. -/
theorem select_queue_min_amended (queues : List IoQueueRec) (s t : Nat)
    (hne : queues.filter (fun q => !q.shutdown) ≠ [])
    (hlt : ∀ q ∈ queues.filter (fun q => !q.shutdown), q.outstanding < usizeMax) :
    (∃ r, selectQueue queues s = some r ∧
      r ∈ queues ∧ r.shutdown = false ∧
      ∀ p ∈ queues.filter (fun q => !q.shutdown), r.outstanding ≤ p.outstanding) ∧
    selectQueue queues s = selectQueue queues t := by
  have hqne : queues ≠ [] := by
    intro hq
    rw [hq] at hne
    exact hne rfl
  by_cases hlen : (queues.filter (fun q => !q.shutdown)).length = 1
  · rcases List.length_eq_one.1 hlen with ⟨a, ha⟩
    have hsel : ∀ u : Nat, selectQueue queues u = some a := by
      intro u
      unfold selectQueue
      rw [if_neg hqne, if_neg hne, if_pos hlen, ha]
      rfl
    have hamem : a ∈ queues.filter (fun q => !q.shutdown) := by
      rw [ha]
      exact List.mem_cons_self a []
    refine ⟨⟨a, hsel s, (List.mem_filter.1 hamem).1, ?_, ?_⟩, (hsel s).trans (hsel t).symm⟩
    · have := (List.mem_filter.1 hamem).2
      simpa using this
    · intro p hp
      rw [ha] at hp
      rcases List.mem_cons.1 hp with rfl | hp'
      · exact le_refl _
      · exact absurd hp' (List.not_mem_nil p)
  · rcases List.exists_mem_of_ne_nil _ hne with ⟨a, hamem⟩
    have hex : ∃ q ∈ queues.filter (fun p => !p.shutdown), q.outstanding < usizeMax :=
      ⟨a, hamem, hlt a hamem⟩
    rcases selMinLoop_min (queues.filter (fun q => !q.shutdown)) usizeMax none hex with
      ⟨r, hr2, hrmem, _, hrmin⟩
    have hsel : ∀ u : Nat, selectQueue queues u = some r := by
      intro u
      unfold selectQueue
      rw [if_neg hqne, if_neg hne, if_neg hlen, hr2]
    refine ⟨⟨r, hsel s, (List.mem_filter.1 hrmem).1, ?_, hrmin⟩, (hsel s).trans (hsel t).symm⟩
    have := (List.mem_filter.1 hrmem).2
    simpa using this

/-- Witness for C8 (amended) at concrete queues: among an active queue with
2 outstanding commands, a shutdown queue with 0, and an active queue with 1,
selection at selector values 5 and 9 both return the active queue with
outstanding 1. -/
theorem select_queue_min_amended_witness :
    (∃ r, selectQueue [⟨1, 2, false⟩, ⟨2, 0, true⟩, ⟨3, 1, false⟩] 5 = some r ∧
      r ∈ [⟨1, 2, false⟩, ⟨2, 0, true⟩, (⟨3, 1, false⟩ : IoQueueRec)] ∧ r.shutdown = false ∧
      ∀ p ∈ List.filter (fun q => !q.shutdown)
        [⟨1, 2, false⟩, ⟨2, 0, true⟩, (⟨3, 1, false⟩ : IoQueueRec)],
        r.outstanding ≤ p.outstanding) ∧
    selectQueue [⟨1, 2, false⟩, ⟨2, 0, true⟩, ⟨3, 1, false⟩] 5 =
      selectQueue [⟨1, 2, false⟩, ⟨2, 0, true⟩, ⟨3, 1, false⟩] 9 :=
  select_queue_min_amended [⟨1, 2, false⟩, ⟨2, 0, true⟩, ⟨3, 1, false⟩] 5 9
    (by decide) (by decide)

/-- Checked machine subtraction: Rust integer subtraction panics on underflow
in debug builds; `none` stands for that abort. -/
def checkedSub (a b : Nat) : Option Nat :=
  if b ≤ a then some (a - b) else none

/-- Modelled from the spec: `PrpManager::create` — the PRP manager is not in
the provided sources (`src/src/memory.rs` holds only `Dma` and `Allocator`;
only the callers in `src/src/device.rs` are present).  Per spec §4.6 the
builder fails with `NotAlignedToDword` when the buffer address is not
dword-aligned and otherwise yields a `(prp1, prp2)` pair; the page split is
irrelevant to the claims settled here, so the pair is kept abstract. -/
def prpCreate (address bytes : Nat) : Except Error (Nat × Nat) :=
  if address % 4 ≠ 0 then .error .NotAlignedToDword
  else .ok (address, bytes)

/-- Device and namespace state read by a namespace facade operation: the
namespace block size, the global shutting-down flag, the controller's
`max_transfer_size`, the I/O queue pool and the `queue_selector` counter.
The completion status the controller posts is passed as an oracle argument
to each operation. -/
structure NsContext where
  block_size : Nat
  shutting_down : Bool
  max_transfer_size : Nat
  queues : List IoQueueRec
  selector : Nat
  deriving DecidableEq, Repr

theorem prpCreate_error_eq (address bytes : Nat) (e : Error)
    (h : prpCreate address bytes = .error e) : e = .NotAlignedToDword := by
  unfold prpCreate at h
  by_cases ha : address % 4 ≠ 0
  · rw [if_pos ha] at h
    injection h with h
    exact h.symm
  · rw [if_neg ha] at h
    exact Except.noConfusion h

/-- Embedding of `Namespace::do_io` (`src/src/device.rs` lines 536-581):
shutting-down check, MDTS check (`bytes > max_transfer_size` fails with
`IoSizeExceedsMdts`), queue selection, PRP creation, command build with
`blocks as u16 - 1` (`checkedSub`; `none` is the debug-build
subtraction-overflow panic when `blocks as u16 = 0`), submission, and decode
of the completion status `(status >> 1) & 0xFF`. -/
def do_io (ctx : NsContext) (lba address bytes : Nat) (write : Bool)
    (entryStatus : Nat) : Option (Except Error Unit) :=
  if ctx.shutting_down = true then some (.error .DeviceShuttingDown)
  else if bytes > ctx.max_transfer_size then some (.error .IoSizeExceedsMdts)
  else
    match selectQueue ctx.queues ctx.selector with
    | none => some (.error .NoActiveQueues)
    | some _ =>
      match prpCreate address bytes with
      | .error e => some (.error e)
      | .ok _ =>
        match checkedSub (bytes / ctx.block_size % 2 ^ 16) 1 with
        | none => none
        | some _ =>
          if entryStatus / 2 % 2 ^ 8 ≠ 0 then
            some (.error (.CommandFailed (entryStatus / 2 % 2 ^ 8)))
          else some (.ok ())

/-- Embedding of `Namespace::read` (`src/src/device.rs` lines 256-261):
buffer-multiple check, then `do_io` with `write = false`. -/
def read (ctx : NsContext) (lba bufAddr bufLen : Nat) (entryStatus : Nat) :
    Option (Except Error Unit) :=
  if bufLen % ctx.block_size ≠ 0 then some (.error .InvalidBufferSize)
  else do_io ctx lba bufAddr bufLen false entryStatus

/-- Embedding of `Namespace::write` (`src/src/device.rs` lines 264-269):
buffer-multiple check, then `do_io` with `write = true`. -/
def write (ctx : NsContext) (lba bufAddr bufLen : Nat) (entryStatus : Nat) :
    Option (Except Error Unit) :=
  if bufLen % ctx.block_size ≠ 0 then some (.error .InvalidBufferSize)
  else do_io ctx lba bufAddr bufLen true entryStatus

theorem do_io_mdts_iff (ctx : NsContext) (lba address bytes : Nat) (w : Bool)
    (entryStatus : Nat) (hrun : ctx.shutting_down = false) :
    do_io ctx lba address bytes w entryStatus = some (.error .IoSizeExceedsMdts) ↔
      bytes > ctx.max_transfer_size := by
  have hrun' : ¬ (ctx.shutting_down = true) := by
    rw [hrun]
    exact Bool.false_ne_true
  unfold do_io
  rw [if_neg hrun']
  by_cases hb : bytes > ctx.max_transfer_size
  · rw [if_pos hb]
    exact iff_of_true rfl hb
  · rw [if_neg hb]
    refine iff_of_false ?_ hb
    intro h
    revert h
    split
    · intro h
      injection h with h
      injection h with h
      exact Error.noConfusion h
    · split
      · rename_i e herr
        intro h
        injection h with h
        injection h with h
        have := prpCreate_error_eq address bytes e herr
        subst this
        exact Error.noConfusion h
      · split
        · intro h
          exact Option.noConfusion h
        · split
          · intro h
            injection h with h
            injection h with h
            exact Error.noConfusion h
          · intro h
            injection h with h
            exact Except.noConfusion h

/-- C4: for a namespace read or write whose buffer length is a multiple of
the block size, on a device that is not shutting down, the operation fails
with `IoSizeExceedsMdts` exactly when the transfer size in bytes exceeds the
controller's `max_transfer_size`; a transfer of exactly `max_transfer_size`
bytes passes the MDTS check. -/
theorem read_write_mdts_iff (ctx : NsContext) (lba bufAddr bufLen entryStatus : Nat)
    (hmul : bufLen % ctx.block_size = 0) (hrun : ctx.shutting_down = false) :
    (read ctx lba bufAddr bufLen entryStatus = some (.error .IoSizeExceedsMdts) ↔
      bufLen > ctx.max_transfer_size) ∧
    (write ctx lba bufAddr bufLen entryStatus = some (.error .IoSizeExceedsMdts) ↔
      bufLen > ctx.max_transfer_size) := by
  have hmul' : ¬ (bufLen % ctx.block_size ≠ 0) := not_ne_iff.2 hmul
  constructor
  · rw [read, if_neg hmul']
    exact do_io_mdts_iff ctx lba bufAddr bufLen false entryStatus hrun
  · rw [write, if_neg hmul']
    exact do_io_mdts_iff ctx lba bufAddr bufLen true entryStatus hrun

/-- Witness for C4 at a concrete device: block size 512, MDTS limit 4096
bytes, one active queue.  A 4096-byte transfer (exactly the limit) does not
fail with `IoSizeExceedsMdts`. -/
theorem read_write_mdts_iff_witness :
    ((read ⟨512, false, 4096, [⟨1, 0, false⟩], 0⟩ 0 0 4096 0 =
        some (.error .IoSizeExceedsMdts) ↔ 4096 > 4096) ∧
     (write ⟨512, false, 4096, [⟨1, 0, false⟩], 0⟩ 0 0 4096 0 =
        some (.error .IoSizeExceedsMdts) ↔ 4096 > 4096)) ∧
    ¬ (4096 : Nat) > 4096 :=
  ⟨read_write_mdts_iff ⟨512, false, 4096, [⟨1, 0, false⟩], 0⟩ 0 0 4096 0
    (by decide) (by decide), by decide⟩

/-- Embedding of `Namespace::compare` (`src/src/device.rs` lines 388-438):
buffer-multiple check, shutting-down check, queue selection, PRP creation for
the expected data, command build with `blocks as u16 - 1` (`checkedSub`),
submission, then the three-way status decode on SC = `(status >> 1) & 0xFF`:
SC = 0 yields `Ok(true)`, SC = 0x85 (Compare Failure) yields `Ok(false)`,
any other SC yields `Err(CommandFailed(SC))`. -/
def compare (ctx : NsContext) (lba bufAddr bufLen : Nat) (entryStatus : Nat) :
    Option (Except Error Bool) :=
  if bufLen % ctx.block_size ≠ 0 then some (.error .InvalidBufferSize)
  else if ctx.shutting_down = true then some (.error .DeviceShuttingDown)
  else
    match selectQueue ctx.queues ctx.selector with
    | none => some (.error .NoActiveQueues)
    | some _ =>
      match prpCreate bufAddr bufLen with
      | .error e => some (.error e)
      | .ok _ =>
        match checkedSub (bufLen / ctx.block_size % 2 ^ 16) 1 with
        | none => none
        | some _ =>
          if entryStatus / 2 % 2 ^ 8 = 0 then some (.ok true)
          else if entryStatus / 2 % 2 ^ 8 = 0x85 then some (.ok false)
          else some (.error (.CommandFailed (entryStatus / 2 % 2 ^ 8)))

/-- C5: a `compare` call that reaches completion (valid buffer, live device,
an active queue, aligned buffer, nonzero block count) returns `true` when the
completion's SC is 0, `false` when SC is 0x85 (Compare Failure), and a
`CommandFailed` error for any other SC. -/
theorem compare_status_decode (ctx : NsContext) (lba bufAddr bufLen entryStatus : Nat)
    (q : IoQueueRec)
    (hmul : bufLen % ctx.block_size = 0)
    (hrun : ctx.shutting_down = false)
    (hsel : selectQueue ctx.queues ctx.selector = some q)
    (halign : bufAddr % 4 = 0)
    (hblocks : 1 ≤ bufLen / ctx.block_size % 2 ^ 16) :
    (entryStatus / 2 % 2 ^ 8 = 0 →
      compare ctx lba bufAddr bufLen entryStatus = some (.ok true)) ∧
    (entryStatus / 2 % 2 ^ 8 = 0x85 →
      compare ctx lba bufAddr bufLen entryStatus = some (.ok false)) ∧
    (entryStatus / 2 % 2 ^ 8 ≠ 0 → entryStatus / 2 % 2 ^ 8 ≠ 0x85 →
      compare ctx lba bufAddr bufLen entryStatus =
        some (.error (.CommandFailed (entryStatus / 2 % 2 ^ 8)))) := by
  have hrun' : ¬ (ctx.shutting_down = true) := by
    rw [hrun]
    exact Bool.false_ne_true
  have hprp : prpCreate bufAddr bufLen = .ok (bufAddr, bufLen) := by
    unfold prpCreate
    rw [if_neg (not_ne_iff.2 halign)]
  have hcs : checkedSub (bufLen / ctx.block_size % 2 ^ 16) 1 =
      some (bufLen / ctx.block_size % 2 ^ 16 - 1) := by
    unfold checkedSub
    rw [if_pos hblocks]
  unfold compare
  rw [if_neg (not_ne_iff.2 hmul), if_neg hrun', hsel, hprp, hcs]
  refine ⟨fun h0 => ?_, fun h85 => ?_, fun h0 h85 => ?_⟩
  · rw [if_pos h0]
  · rw [if_neg (by rw [h85]; norm_num), if_pos h85]
  · rw [if_neg h0, if_neg h85]

/-- Witness for C5 at a concrete device: one active queue, block size 512,
one-block compare; a completion with status word `0x10A` (SC = 0x85) makes
`compare` return `false`. -/
theorem compare_status_decode_witness :
    compare ⟨512, false, 4096, [⟨1, 0, false⟩], 0⟩ 0 0 512 0x10A =
      some (.ok false) :=
  (compare_status_decode ⟨512, false, 4096, [⟨1, 0, false⟩], 0⟩ 0 0 512 0x10A
    ⟨1, 0, false⟩ (by decide) (by decide) (by decide) (by decide) (by decide)).2.1
    (by decide)

/-- Embedding of `Namespace::write_zeroes` (`src/src/device.rs` lines
352-384): shutting-down check, queue selection, then the command is built
with `block_count - 1` on `u16` — `checkedSub`, whose `none` result is the
debug-build subtraction-overflow panic at `block_count = 0` — and the
completion status is decoded as in `do_io`. -/
def write_zeroes (ctx : NsContext) (lba block_count : Nat) (entryStatus : Nat) :
    Option (Except Error Unit) :=
  if ctx.shutting_down = true then some (.error .DeviceShuttingDown)
  else
    match selectQueue ctx.queues ctx.selector with
    | none => some (.error .NoActiveQueues)
    | some _ =>
      match checkedSub block_count 1 with
      | none => none
      | some _ =>
        if entryStatus / 2 % 2 ^ 8 ≠ 0 then
          some (.error (.CommandFailed (entryStatus / 2 % 2 ^ 8)))
        else some (.ok ())

/-- C9: on a live device with one active queue, `write_zeroes` with
`block_count = 0` reaches the unchecked `block_count - 1` on `u16` and aborts
via subtraction overflow (`none`) instead of returning a structured error;
likewise a zero-length `read` reaches the unchecked `blocks as u16 - 1` in
`do_io` and aborts.  This refutes "never aborts via arithmetic underflow". -/
theorem write_zeroes_underflow_panic :
    write_zeroes ⟨512, false, 4096, [⟨1, 0, false⟩], 0⟩ 0 0 0 = none ∧
    read ⟨512, false, 4096, [⟨1, 0, false⟩], 0⟩ 0 0 0 0 = none :=
  ⟨rfl, rfl⟩

end NVMeRust
